import Mathlib

/-
Verification of `get_sub_registrar_info`
(src/rust-crates/sns-sdk/src/non_blocking/subdomain.rs).

The function is a three-stage pipeline: derive the domain key
(`get_domain_key`), derive the registrar storage key (`Registrar::find_key`),
fetch the raw account bytes over RPC (`get_account_data`), check that the
first byte equals the Registrar discriminant tag, and borsh-deserialize the
full payload.

The external collaborators (the derivation function, the RPC client and the
borsh decoder for `Registrar`) are modelled as components of an explicit
environment record, so the pipeline logic of the one source function is the
object of study.  The embedding also records an event trace (which remote
reads were issued, which payloads were handed to the decoder) so that
claims about the number of fetches and about the decoder never being
invoked are directly statable.

Rust `Vec` indexing (`account[0]`) panics when the vector is empty; the
source performs this index with no length check, so the embedding has an
explicit `panicked` outcome for exactly that case.
-/

namespace SnsSdk

/-- Modelled from the spec: the error taxonomy of `SnsError`
(`crate::error` is not part of the sources under study; only
`InvalidSubRegistrar` appears literally in the source function).
`InvalidDomain` is what the derivation collaborator reports for a bad
domain, `AccountUnreachable` / `AccountNotFound` are the two distinct
fetch failures, `MalformedAccount` is the kind the spec assigns to an
empty payload, `DecodeError` is a borsh failure propagated by `?`. -/
inductive SnsError where
  | InvalidDomain
  | AccountUnreachable
  | AccountNotFound
  | MalformedAccount
  | InvalidSubRegistrar
  | DecodeError
deriving DecidableEq

/-- Result of one remote read: the stored bytes, a report that the address
holds no data, or a failure of the remote call itself. -/
inductive FetchResult where
  | found (data : List Nat)
  | notFound
  | unreachable
deriving DecidableEq

/-- Outcome of one invocation: a decoded record, an error value, or a Rust
panic (out-of-bounds index). -/
inductive Outcome (Registrar : Type) where
  | ok (r : Registrar)
  | err (e : SnsError)
  | panicked
deriving DecidableEq

/-- Observable externally-visible steps of one invocation: a remote read
issued for an address, or the decoder invoked on a payload. -/
inductive Event (Pubkey : Type) where
  | fetch (addr : Pubkey)
  | decode (payload : List Nat)
deriving DecidableEq

def Event.isFetch {Pubkey : Type} : Event Pubkey → Bool
  | .fetch _ => true
  | .decode _ => false

def Event.isDecode {Pubkey : Type} : Event Pubkey → Bool
  | .fetch _ => false
  | .decode _ => true

/-- The external collaborators of the source function, held fixed for one
invocation: `get_domain_key` (crate::derivation), `find_key`
(`Registrar::find_key` combined with the fixed `SUB_REGISTRAR_PROGRAM_ID`,
a pure derivation), `get_account_data` (the RPC client read against a fixed
ledger snapshot), and `deserialize` (`Registrar::deserialize`, borsh: reads
a leading fragment of the byte stream and returns the decoded record
together with the unconsumed remainder, or fails). -/
structure Env (Pubkey Registrar : Type) where
  get_domain_key : String → Except SnsError Pubkey
  find_key : Pubkey → Pubkey
  get_account_data : Pubkey → FetchResult
  deserialize : List Nat → Option (Registrar × List Nat)

/-- Modelled from the spec: the discriminant value
`SubRegistrarAccountTag::Registrar as u8` (the `sub_registrar` crate is an
external dependency; the spec fixes the Registrar tag byte as 0x01). -/
def registrarTag : Nat := 1

/-- Shallow embedding of `get_sub_registrar_info`, line by line:
derivation with `?`-propagation, `Registrar::find_key(..).0`, one
`get_account_data` call whose two failure modes map to the two distinct
error kinds, the `account[0] != expected_tag as u8` check (a panic when
the payload is empty, exactly as Rust indexing), and
`Registrar::deserialize(&mut (&account as &[u8]))?` applied to the full
payload, ignoring unconsumed trailing bytes.  The second component is the
trace of remote reads and decoder invocations. -/
def get_sub_registrar_info {Pubkey Registrar : Type}
    (env : Env Pubkey Registrar) (domain : String) :
    Outcome Registrar × List (Event Pubkey) :=
  match env.get_domain_key domain with
  | .error e => (.err e, [])
  | .ok key =>
    let registrar_key := env.find_key key
    match env.get_account_data registrar_key with
    | .unreachable => (.err .AccountUnreachable, [.fetch registrar_key])
    | .notFound => (.err .AccountNotFound, [.fetch registrar_key])
    | .found account =>
      match account with
      | [] => (.panicked, [.fetch registrar_key])
      | b :: _ =>
        if b ≠ registrarTag then
          (.err .InvalidSubRegistrar, [.fetch registrar_key])
        else
          match env.deserialize account with
          | none => (.err .DecodeError, [.fetch registrar_key, .decode account])
          | some (r, _) => (.ok r, [.fetch registrar_key, .decode account])

/-- A concrete record type standing in for `Registrar` in witness
environments; the spec requires at least an `authority` field. -/
structure TestRegistrar where
  authority : Nat
deriving DecidableEq

/-- A concrete test environment over `Pubkey := Nat`: derivation fails with
`InvalidDomain` on the empty domain and otherwise returns key 7, the
registrar key derivation adds 100, every read returns the given
`FetchResult`, and the decoder consumes a tag byte plus one authority byte
and returns the rest unconsumed. -/
def envOf (fetch : FetchResult) : Env Nat TestRegistrar :=
  { get_domain_key := fun d =>
      if d = "" then .error .InvalidDomain else .ok 7
    find_key := fun k => k + 100
    get_account_data := fun _ => fetch
    deserialize := fun l =>
      match l with
      | t :: a :: rest =>
        if t = registrarTag then some (⟨a⟩, rest) else none
      | _ => none }

/-- Branch equation: a derivation failure propagates unchanged and the
invocation ends with an empty trace. -/
theorem run_derive_error {Pubkey Registrar : Type}
    (env : Env Pubkey Registrar) (d : String) (e : SnsError)
    (h : env.get_domain_key d = .error e) :
    get_sub_registrar_info env d = (.err e, []) := by
  unfold get_sub_registrar_info
  rw [h]

/-- Branch equation: remote-call failure yields `AccountUnreachable` after
one fetch. -/
theorem run_unreachable {Pubkey Registrar : Type}
    (env : Env Pubkey Registrar) (d : String) (key : Pubkey)
    (h1 : env.get_domain_key d = .ok key)
    (h2 : env.get_account_data (env.find_key key) = .unreachable) :
    get_sub_registrar_info env d =
      (.err .AccountUnreachable, [.fetch (env.find_key key)]) := by
  unfold get_sub_registrar_info
  rw [h1]
  simp only [h2]

/-- Branch equation: an absent account yields `AccountNotFound` after one
fetch. -/
theorem run_not_found {Pubkey Registrar : Type}
    (env : Env Pubkey Registrar) (d : String) (key : Pubkey)
    (h1 : env.get_domain_key d = .ok key)
    (h2 : env.get_account_data (env.find_key key) = .notFound) :
    get_sub_registrar_info env d =
      (.err .AccountNotFound, [.fetch (env.find_key key)]) := by
  unfold get_sub_registrar_info
  rw [h1]
  simp only [h2]

/-- Branch equation: an empty payload hits the unchecked `account[0]`
index and the invocation panics after one fetch. -/
theorem run_empty_payload {Pubkey Registrar : Type}
    (env : Env Pubkey Registrar) (d : String) (key : Pubkey)
    (h1 : env.get_domain_key d = .ok key)
    (h2 : env.get_account_data (env.find_key key) = .found []) :
    get_sub_registrar_info env d =
      (.panicked, [.fetch (env.find_key key)]) := by
  unfold get_sub_registrar_info
  rw [h1]
  simp only [h2]

/-- Branch equation: a first byte different from the Registrar tag yields
`InvalidSubRegistrar` after one fetch and no decode. -/
theorem run_bad_tag {Pubkey Registrar : Type}
    (env : Env Pubkey Registrar) (d : String) (key : Pubkey)
    (b : Nat) (tl : List Nat)
    (h1 : env.get_domain_key d = .ok key)
    (h2 : env.get_account_data (env.find_key key) = .found (b :: tl))
    (h3 : b ≠ registrarTag) :
    get_sub_registrar_info env d =
      (.err .InvalidSubRegistrar, [.fetch (env.find_key key)]) := by
  unfold get_sub_registrar_info
  rw [h1]
  simp only [h2, h3, if_pos, ne_eq, not_false_eq_true, if_true]

/-- Branch equation: a correctly tagged payload the decoder rejects yields
`DecodeError` after one fetch and one decode of the full payload. -/
theorem run_decode_fail {Pubkey Registrar : Type}
    (env : Env Pubkey Registrar) (d : String) (key : Pubkey)
    (tl : List Nat)
    (h1 : env.get_domain_key d = .ok key)
    (h2 : env.get_account_data (env.find_key key) = .found (registrarTag :: tl))
    (h3 : env.deserialize (registrarTag :: tl) = none) :
    get_sub_registrar_info env d =
      (.err .DecodeError,
        [.fetch (env.find_key key), .decode (registrarTag :: tl)]) := by
  unfold get_sub_registrar_info
  rw [h1]
  simp only [h2, h3, ne_eq, not_true_eq_false, if_false, ite_false,
    not_false_eq_true]

/-- Branch equation: a correctly tagged payload the decoder accepts yields
the decoded record after one fetch and one decode of the full payload;
unconsumed trailing bytes are ignored. -/
theorem run_decode_ok {Pubkey Registrar : Type}
    (env : Env Pubkey Registrar) (d : String) (key : Pubkey)
    (tl rest : List Nat) (r : Registrar)
    (h1 : env.get_domain_key d = .ok key)
    (h2 : env.get_account_data (env.find_key key) = .found (registrarTag :: tl))
    (h3 : env.deserialize (registrarTag :: tl) = some (r, rest)) :
    get_sub_registrar_info env d =
      (.ok r, [.fetch (env.find_key key), .decode (registrarTag :: tl)]) := by
  unfold get_sub_registrar_info
  rw [h1]
  simp only [h2, h3, ne_eq, not_true_eq_false, if_false, ite_false,
    not_false_eq_true]

/-- Claim C1: whenever the fetched payload's first byte differs from the
Registrar tag, `get_sub_registrar_info` fails with the
`InvalidSubRegistrar` (UnexpectedRecordTag) error kind and the decoder is
never invoked; consequently a record is only ever produced from a payload
whose first byte equals the expected tag. -/
theorem c1_tag_mismatch_never_decoded :
    (∀ (Pubkey Registrar : Type) (env : Env Pubkey Registrar) (d : String)
        (key : Pubkey) (account : List Nat) (b : Nat),
      env.get_domain_key d = .ok key →
      env.get_account_data (env.find_key key) = .found account →
      account.head? = some b →
      b ≠ registrarTag →
      (get_sub_registrar_info env d).1 = .err .InvalidSubRegistrar ∧
        (get_sub_registrar_info env d).2.countP Event.isDecode = 0) ∧
    (∀ (Pubkey Registrar : Type) (env : Env Pubkey Registrar) (d : String)
        (r : Registrar) (tr : List (Event Pubkey)),
      get_sub_registrar_info env d = (.ok r, tr) →
      ∃ (key : Pubkey) (account : List Nat),
        env.get_domain_key d = .ok key ∧
          env.get_account_data (env.find_key key) = .found account ∧
          account.head? = some registrarTag) := by
  constructor
  · intro P R env d key account b h1 h2 h3 h4
    cases account with
    | nil => simp at h3
    | cons x tl =>
      simp only [List.head?_cons, Option.some.injEq] at h3
      subst h3
      rw [run_bad_tag env d key x tl h1 h2 h4]
      exact ⟨rfl, rfl⟩
  · intro P R env d r tr h
    cases h1 : env.get_domain_key d with
    | error e =>
      rw [run_derive_error env d e h1] at h
      simp at h
    | ok key =>
      cases h2 : env.get_account_data (env.find_key key) with
      | unreachable =>
        rw [run_unreachable env d key h1 h2] at h
        simp at h
      | notFound =>
        rw [run_not_found env d key h1 h2] at h
        simp at h
      | found account =>
        cases account with
        | nil =>
          rw [run_empty_payload env d key h1 h2] at h
          simp at h
        | cons b tl =>
          by_cases hb : b = registrarTag
          · subst hb
            exact ⟨key, registrarTag :: tl, rfl, h2, rfl⟩
          · rw [run_bad_tag env d key b tl h1 h2 hb] at h
            simp at h

/-- Concrete instance of C1: a payload tagged 2 instead of 1 is rejected
with `InvalidSubRegistrar` and no decode event occurs. -/
theorem c1_witness :
    (get_sub_registrar_info (envOf (.found [2, 3])) "example").1 =
        .err .InvalidSubRegistrar ∧
      (get_sub_registrar_info (envOf (.found [2, 3])) "example").2.countP
          Event.isDecode = 0 :=
  c1_tag_mismatch_never_decoded.1 Nat TestRegistrar (envOf (.found [2, 3]))
    "example" 7 [2, 3] 2 rfl rfl rfl (by decide)

/-- Claim C2 refuted (code bug): on an empty payload the source indexes
`account[0]` with no length check, so the invocation panics; it does not
return the `MalformedAccount` error the spec requires. -/
theorem c2_empty_payload_panics :
    get_sub_registrar_info (envOf (.found [])) "example" =
        (.panicked, [.fetch 107]) ∧
      (Outcome.panicked : Outcome TestRegistrar) ≠ .err .MalformedAccount :=
  ⟨rfl, by decide⟩

/-- Claim C3: an absent account yields `AccountNotFound`, a failing remote
call yields `AccountUnreachable`, and the two error kinds are distinct at
the result type. -/
theorem c3_not_found_vs_unreachable :
    (∀ (Pubkey Registrar : Type) (env : Env Pubkey Registrar) (d : String)
        (key : Pubkey),
      env.get_domain_key d = .ok key →
      (env.get_account_data (env.find_key key) = .notFound →
          (get_sub_registrar_info env d).1 = .err .AccountNotFound) ∧
        (env.get_account_data (env.find_key key) = .unreachable →
          (get_sub_registrar_info env d).1 = .err .AccountUnreachable)) ∧
    SnsError.AccountNotFound ≠ SnsError.AccountUnreachable := by
  refine ⟨?_, by decide⟩
  intro P R env d key h1
  constructor
  · intro h2
    rw [run_not_found env d key h1 h2]
  · intro h2
    rw [run_unreachable env d key h1 h2]

/-- Concrete instance of C3: the two fetch failures produce the two
distinct error kinds. -/
theorem c3_witness :
    (get_sub_registrar_info (envOf .notFound) "example").1 =
        .err .AccountNotFound ∧
      (get_sub_registrar_info (envOf .unreachable) "example").1 =
        .err .AccountUnreachable :=
  ⟨(c3_not_found_vs_unreachable.1 Nat TestRegistrar (envOf .notFound)
      "example" 7 rfl).1 rfl,
    (c3_not_found_vs_unreachable.1 Nat TestRegistrar (envOf .unreachable)
      "example" 7 rfl).2 rfl⟩

/-- Claim C4: round trip — if the fetched payload is the Registrar tag
byte followed by a valid encoding of `r` (the tag byte being part of the
encoding, which the decoder consumes in full), the function succeeds and
returns `r`. -/
theorem c4_round_trip {Pubkey Registrar : Type}
    (env : Env Pubkey Registrar) (d : String) (key : Pubkey)
    (body : List Nat) (r : Registrar)
    (h1 : env.get_domain_key d = .ok key)
    (h2 : env.get_account_data (env.find_key key) =
      .found (registrarTag :: body))
    (h3 : env.deserialize (registrarTag :: body) = some (r, [])) :
    (get_sub_registrar_info env d).1 = .ok r := by
  rw [run_decode_ok env d key body [] r h1 h2 h3]

/-- Concrete instance of C4: payload `[1, 42]` decodes back to the record
with authority 42. -/
theorem c4_witness :
    (get_sub_registrar_info (envOf (.found [registrarTag, 42]))
        "example").1 = .ok ⟨42⟩ :=
  c4_round_trip (envOf (.found [registrarTag, 42])) "example" 7 [42] ⟨42⟩
    rfl rfl rfl

/-- Claim C5: with the derivation function, the key derivation, the ledger
contents and the decoder held fixed, two invocations on the same domain
return equal results (the operation reads no other state), and in
particular two successful calls return equal records. -/
theorem c5_deterministic :
    (∀ (Pubkey Registrar : Type) (env1 env2 : Env Pubkey Registrar)
        (d : String),
      env1.get_domain_key = env2.get_domain_key →
      env1.find_key = env2.find_key →
      env1.get_account_data = env2.get_account_data →
      env1.deserialize = env2.deserialize →
      get_sub_registrar_info env1 d = get_sub_registrar_info env2 d) ∧
    (∀ (Pubkey Registrar : Type) (env : Env Pubkey Registrar) (d : String)
        (r1 r2 : Registrar) (t1 t2 : List (Event Pubkey)),
      get_sub_registrar_info env d = (.ok r1, t1) →
      get_sub_registrar_info env d = (.ok r2, t2) → r1 = r2) := by
  constructor
  · intro P R env1 env2 d h1 h2 h3 h4
    have he : env1 = env2 := by
      cases env1
      cases env2
      congr
    rw [he]
  · intro P R env d r1 r2 t1 t2 ha hb
    rw [ha] at hb
    cases hb
    rfl

/-- Concrete instance of C5: two invocations against the same fixed
environment return equal results. -/
theorem c5_witness :
    get_sub_registrar_info (envOf (.found [1, 42])) "example" =
      get_sub_registrar_info (envOf (.found [1, 42])) "example" :=
  c5_deterministic.1 Nat TestRegistrar (envOf (.found [1, 42]))
    (envOf (.found [1, 42])) "example" rfl rfl rfl rfl

/-- Claim C6: whenever the decoder is invoked, its argument is exactly the
full fetched payload starting at byte offset 0 — the tag byte included,
not stripped. -/
theorem c6_decode_on_full_payload :
    ∀ (Pubkey Registrar : Type) (env : Env Pubkey Registrar) (d : String)
      (p : List Nat),
      Event.decode p ∈ (get_sub_registrar_info env d).2 →
      ∃ (key : Pubkey) (account : List Nat),
        env.get_domain_key d = .ok key ∧
          env.get_account_data (env.find_key key) = .found account ∧
          p = account ∧ account.head? = some registrarTag := by
  intro P R env d p hp
  cases h1 : env.get_domain_key d with
  | error e =>
    rw [run_derive_error env d e h1] at hp
    simp at hp
  | ok key =>
    cases h2 : env.get_account_data (env.find_key key) with
    | unreachable =>
      rw [run_unreachable env d key h1 h2] at hp
      simp at hp
    | notFound =>
      rw [run_not_found env d key h1 h2] at hp
      simp at hp
    | found account =>
      cases account with
      | nil =>
        rw [run_empty_payload env d key h1 h2] at hp
        simp at hp
      | cons b tl =>
        by_cases hb : b = registrarTag
        · subst hb
          cases h3 : env.deserialize (registrarTag :: tl) with
          | none =>
            rw [run_decode_fail env d key tl h1 h2 h3] at hp
            simp at hp
            exact ⟨key, registrarTag :: tl, rfl, h2, hp, rfl⟩
          | some rr =>
            obtain ⟨r, rest⟩ := rr
            rw [run_decode_ok env d key tl rest r h1 h2 h3] at hp
            simp at hp
            exact ⟨key, registrarTag :: tl, rfl, h2, hp, rfl⟩
        · rw [run_bad_tag env d key b tl h1 h2 hb] at hp
          simp at hp

/-- Concrete instance of C6: the decode event carries the full two-byte
payload, tag byte included. -/
theorem c6_witness :
    ∃ (key : Nat) (account : List Nat),
      (envOf (.found [1, 42])).get_domain_key "example" = .ok key ∧
        (envOf (.found [1, 42])).get_account_data
            ((envOf (.found [1, 42])).find_key key) = .found account ∧
        ([1, 42] : List Nat) = account ∧
        account.head? = some registrarTag :=
  c6_decode_on_full_payload Nat TestRegistrar (envOf (.found [1, 42]))
    "example" [1, 42] (by decide)

/-- Claim C7: a derivation failure is propagated unchanged (in particular
`InvalidDomain`) and aborts the pipeline: no remote read and no decode is
performed. -/
theorem c7_derivation_failure_aborts :
    ∀ (Pubkey Registrar : Type) (env : Env Pubkey Registrar) (d : String)
      (e : SnsError),
      env.get_domain_key d = .error e →
      get_sub_registrar_info env d = (.err e, []) ∧
        (get_sub_registrar_info env d).2.countP Event.isFetch = 0 ∧
        (get_sub_registrar_info env d).2.countP Event.isDecode = 0 := by
  intro P R env d e h
  rw [run_derive_error env d e h]
  exact ⟨rfl, rfl, rfl⟩

/-- Concrete instance of C7: the empty domain makes the modelled
derivation fail with `InvalidDomain`, and the call returns that error with
an empty trace. -/
theorem c7_witness :
    get_sub_registrar_info (envOf .notFound) "" =
        (.err .InvalidDomain, []) ∧
      (get_sub_registrar_info (envOf .notFound) "").2.countP
          Event.isFetch = 0 ∧
      (get_sub_registrar_info (envOf .notFound) "").2.countP
          Event.isDecode = 0 :=
  c7_derivation_failure_aborts Nat TestRegistrar (envOf .notFound) ""
    .InvalidDomain rfl

/-- Claim C8: every invocation issues at most one remote read — exactly
one whenever derivation succeeds — and never re-issues it on failure. -/
theorem c8_at_most_one_fetch :
    ∀ (Pubkey Registrar : Type) (env : Env Pubkey Registrar) (d : String),
      (get_sub_registrar_info env d).2.countP Event.isFetch ≤ 1 ∧
        (∀ key : Pubkey, env.get_domain_key d = .ok key →
          (get_sub_registrar_info env d).2.countP Event.isFetch = 1) := by
  intro P R env d
  cases h1 : env.get_domain_key d with
  | error e =>
    rw [run_derive_error env d e h1]
    exact ⟨by simp, fun key hk => by simp at hk⟩
  | ok key =>
    cases h2 : env.get_account_data (env.find_key key) with
    | unreachable =>
      rw [run_unreachable env d key h1 h2]
      exact ⟨by simp [Event.isFetch], fun k hk => by simp [Event.isFetch]⟩
    | notFound =>
      rw [run_not_found env d key h1 h2]
      exact ⟨by simp [Event.isFetch], fun k hk => by simp [Event.isFetch]⟩
    | found account =>
      cases account with
      | nil =>
        rw [run_empty_payload env d key h1 h2]
        exact ⟨by simp [Event.isFetch], fun k hk => by simp [Event.isFetch]⟩
      | cons b tl =>
        by_cases hb : b = registrarTag
        · subst hb
          cases h3 : env.deserialize (registrarTag :: tl) with
          | none =>
            rw [run_decode_fail env d key tl h1 h2 h3]
            exact ⟨by simp [Event.isFetch],
              fun k hk => by simp [Event.isFetch]⟩
          | some rr =>
            obtain ⟨r, rest⟩ := rr
            rw [run_decode_ok env d key tl rest r h1 h2 h3]
            exact ⟨by simp [Event.isFetch],
              fun k hk => by simp [Event.isFetch]⟩
        · rw [run_bad_tag env d key b tl h1 h2 hb]
          exact ⟨by simp [Event.isFetch], fun k hk => by simp [Event.isFetch]⟩

/-- Concrete instance of C8: a successful lookup issues exactly one remote
read. -/
theorem c8_witness :
    (get_sub_registrar_info (envOf (.found [1, 42])) "example").2.countP
        Event.isFetch ≤ 1 ∧
      (get_sub_registrar_info (envOf (.found [1, 42])) "example").2.countP
        Event.isFetch = 1 :=
  have h := c8_at_most_one_fetch Nat TestRegistrar (envOf (.found [1, 42]))
    "example"
  ⟨h.1, h.2 7 rfl⟩

/-- Claim C9: on every non-empty fetched payload the function is total —
it returns a record or an error value, never a panic — and a correctly
tagged payload the decoder rejects (for instance the tag byte alone)
yields `DecodeError`, not a crash. -/
theorem c9_total_on_nonempty :
    ∀ (Pubkey Registrar : Type) (env : Env Pubkey Registrar) (d : String)
      (key : Pubkey) (account : List Nat),
      env.get_domain_key d = .ok key →
      env.get_account_data (env.find_key key) = .found account →
      account ≠ [] →
      (get_sub_registrar_info env d).1 ≠ .panicked ∧
        (env.deserialize account = none →
          account.head? = some registrarTag →
          (get_sub_registrar_info env d).1 = .err .DecodeError) := by
  intro P R env d key account h1 h2 h3
  cases account with
  | nil => exact absurd rfl h3
  | cons b tl =>
    by_cases hb : b = registrarTag
    · subst hb
      cases h4 : env.deserialize (registrarTag :: tl) with
      | none =>
        rw [run_decode_fail env d key tl h1 h2 h4]
        exact ⟨by simp, fun _ _ => rfl⟩
      | some rr =>
        obtain ⟨r, rest⟩ := rr
        rw [run_decode_ok env d key tl rest r h1 h2 h4]
        refine ⟨by simp, fun h5 _ => ?_⟩
        cases h5
    · rw [run_bad_tag env d key b tl h1 h2 hb]
      refine ⟨by simp, fun _ h6 => ?_⟩
      simp only [List.head?_cons, Option.some.injEq] at h6
      exact absurd h6 hb

/-- Concrete instance of C9: the one-byte payload holding only the correct
tag yields `DecodeError` rather than a panic. -/
theorem c9_witness :
    (get_sub_registrar_info (envOf (.found [1])) "example").1 ≠
        .panicked ∧
      (get_sub_registrar_info (envOf (.found [1])) "example").1 =
        .err .DecodeError :=
  have h := c9_total_on_nonempty Nat TestRegistrar (envOf (.found [1]))
    "example" 7 [1] rfl rfl (by decide)
  ⟨h.1, h.2 rfl rfl⟩

/-- Claim C10: trailing bytes are accepted — when the payload carries the
Registrar tag and the decoder consumes a valid leading encoding, leaving
unconsumed bytes, the function still succeeds with the decoded record. -/
theorem c10_trailing_bytes_accepted :
    ∀ (Pubkey Registrar : Type) (env : Env Pubkey Registrar) (d : String)
      (key : Pubkey) (tl rest : List Nat) (r : Registrar),
      env.get_domain_key d = .ok key →
      env.get_account_data (env.find_key key) =
        .found (registrarTag :: tl) →
      env.deserialize (registrarTag :: tl) = some (r, rest) →
      (get_sub_registrar_info env d).1 = .ok r := by
  intro P R env d key tl rest r h1 h2 h3
  rw [run_decode_ok env d key tl rest r h1 h2 h3]

/-- Concrete instance of C10: a payload with two bytes left over after the
valid encoding still decodes to the record with authority 42. -/
theorem c10_witness :
    ([9, 9] : List Nat) ≠ [] ∧
      (envOf (.found [1, 42, 9, 9])).deserialize [1, 42, 9, 9] =
        some (⟨42⟩, [9, 9]) ∧
      (get_sub_registrar_info (envOf (.found [1, 42, 9, 9]))
          "example").1 = .ok ⟨42⟩ :=
  ⟨by decide, rfl,
    c10_trailing_bytes_accepted Nat TestRegistrar
      (envOf (.found [1, 42, 9, 9])) "example" 7 [42, 9, 9] [9, 9] ⟨42⟩
      rfl rfl rfl⟩

end SnsSdk
